import Mathlib

/-!
Verification of the NiftyNet application driver
(src/niftynet/engine/application_driver.py).

The development shallowly embeds the driver: the execution loop
(`ApplicationDriver.loop`, `ApplicationDriver.loop_step`), the top level
entry point (`ApplicationDriver.run_application`) with its exception
handling and cleanup, the configuration phase
(`ApplicationDriver.initialise_application`), and the batch-normalisation
part of graph assembly (`ApplicationDriver.create_graph`).

External collaborators (the TensorFlow session, the application object,
the data partitioner, event subscribers) are represented by their
observable effects: each iteration message records how its step behaves
(which events its handlers fire, whether a subscriber sets should_stop,
whether execution raises and with which exception class), the
partitioner is represented by its has_validation answer, and the
coordinator by the value of its cooperative cancellation flag at each
poll. Event broadcasts are recorded in a trace.
-/

/-- Exception classes that can escape a loop step, as distinguished by the
except clauses of run_application: KeyboardInterrupt,
tf.errors.OutOfRangeError, RuntimeError, and `other` standing for every
remaining exception class (for example ValueError or the TensorFlow
OpError subclasses other than OutOfRangeError, none of which is a
RuntimeError in Python). -/
inductive Exc
  | keyboardInterrupt
  | outOfRange
  | runtimeError
  | other
  deriving DecidableEq, Repr

/-- Lifecycle events broadcast on the four channels of
niftynet/engine/signal.py, each carrying the current_iter of the
IterationMessage it is sent with. -/
inductive Event
  | sessStarted (idx : Int)
  | iterStarted (idx : Int)
  | iterFinished (idx : Int)
  | sessFinished (idx : Int)
  deriving DecidableEq, Repr

/-- Observable behaviour of one call to ApplicationDriver.loop_step on a
message: either the step completes (ITER_STARTED, sess.run,
ITER_FINISHED all return) and `should_stop` records the value of
iter_msg.should_stop afterwards, or an exception escapes from one of the
three phases (an ITER_STARTED subscriber, sess.run itself, or an
ITER_FINISHED subscriber). An event counts as fired once its send starts,
so a subscriber raising does not retract the event. -/
inductive StepOutcome
  | ok (should_stop : Bool)
  | raiseAtStarted (e : Exc)
  | raiseAtExec (e : Exc)
  | raiseAtFinished (e : Exc)
  deriving DecidableEq, Repr

/-- One IterationMessage pulled from the iteration generator, together
with the behaviour of its step. -/
structure IterMsg where
  current_iter : Int
  outcome : StepOutcome
  deriving DecidableEq, Repr

/-- The loop_status dictionary: current_iter may be absent (read with
default -1), normal_exit defaults to False. -/
structure LoopStatus where
  currentIter? : Option Int
  normalExit : Bool
  deriving DecidableEq, Repr

/-- Result of ApplicationDriver.loop: the events broadcast, the final
loop_status, the exception escaping the loop (if any), and how many
messages were pulled from the generator. -/
structure LoopOut where
  events : List Event
  status : LoopStatus
  exc : Option Exc
  consumed : Nat
  deriving DecidableEq, Repr

/-- Modelled from the spec: the IterationMessage class
(niftynet/engine/application_iteration.py) is not under src/. Its
constructor takes no arguments at every call site in src/, so a freshly
constructed placeholder message carries a fixed default iteration index
independent of the driver configuration; the sources read current_iter
with default -1 as the sentinel for no recorded iteration
(run_application and loop both do loop_status.get with default -1), so
the default index is modelled as -1. -/
def IterationMessage.defaultIter : Int := -1

/-- Events fired by ApplicationDriver.loop_step on a message:
ITER_STARTED is sent first; ITER_FINISHED is sent only when neither an
ITER_STARTED subscriber nor sess.run raised. -/
def loop_step_events (m : IterMsg) : List Event :=
  match m.outcome with
  | StepOutcome.ok _ => [Event.iterStarted m.current_iter, Event.iterFinished m.current_iter]
  | StepOutcome.raiseAtStarted _ => [Event.iterStarted m.current_iter]
  | StepOutcome.raiseAtExec _ => [Event.iterStarted m.current_iter]
  | StepOutcome.raiseAtFinished _ =>
      [Event.iterStarted m.current_iter, Event.iterFinished m.current_iter]

/-- Exception escaping a step, if any. -/
def StepOutcome.excOf : StepOutcome → Option Exc
  | StepOutcome.ok _ => none
  | StepOutcome.raiseAtStarted e => some e
  | StepOutcome.raiseAtExec e => some e
  | StepOutcome.raiseAtFinished e => some e

/-- The for-loop of ApplicationDriver.loop. `cancel k` is the value of
coordinator.should_stop() at the k-th poll. Mirrors the source order:
pull a message, poll the coordinator (break if set), record
current_iter into loop_status, run loop_step, then break if a subscriber
set should_stop. An exception escaping loop_step aborts the walk and is
returned. `consumed` counts messages pulled from the generator,
including a message pulled and then dropped by the cancellation break. -/
def loopBody (cancel : Nat → Bool) : List IterMsg → Nat → LoopStatus → LoopOut
  | [], _, st => { events := [], status := st, exc := none, consumed := 0 }
  | m :: rest, k, st =>
    if cancel k then
      { events := [], status := st, exc := none, consumed := 1 }
    else
      let st1 := { st with currentIter? := some m.current_iter }
      match m.outcome with
      | StepOutcome.ok should_stop =>
        if should_stop then
          { events := loop_step_events m, status := st1, exc := none, consumed := 1 }
        else
          let r := loopBody cancel rest (k + 1) st1
          { events := loop_step_events m ++ r.events, status := r.status,
            exc := r.exc, consumed := r.consumed + 1 }
      | StepOutcome.raiseAtStarted e =>
          { events := loop_step_events m, status := st1, exc := some e, consumed := 1 }
      | StepOutcome.raiseAtExec e =>
          { events := loop_step_events m, status := st1, exc := some e, consumed := 1 }
      | StepOutcome.raiseAtFinished e =>
          { events := loop_step_events m, status := st1, exc := some e, consumed := 1 }

/-- ApplicationDriver.loop: broadcasts SESS_STARTED with a fresh
placeholder message, walks the generator, and, when no exception escaped
the walk, sets normal_exit and broadcasts SESS_FINISHED with the
recorded current_iter (default -1). When an exception escapes the
for-loop, the method exits before the normal_exit assignment and before
the SESS_FINISHED broadcast. -/
def ApplicationDriver.loop (cancel : Nat → Bool) (msgs : List IterMsg) (st0 : LoopStatus) :
    LoopOut :=
  let body := loopBody cancel msgs 0 st0
  match body.exc with
  | some e =>
    { events := Event.sessStarted IterationMessage.defaultIter :: body.events,
      status := body.status, exc := some e, consumed := body.consumed }
  | none =>
    let st1 := { body.status with normalExit := true }
    { events := Event.sessStarted IterationMessage.defaultIter ::
        (body.events ++ [Event.sessFinished (st1.currentIter?.getD (-1))]),
      status := st1, exc := none, consumed := body.consumed }

/-- Initial loop_status built by run_application:
current_iter = initial_iter, normal_exit = False. -/
def runInitStatus (initial_iter : Int) : LoopStatus :=
  { currentIter? := some initial_iter, normalExit := false }

/-- Observable result of ApplicationDriver.run_application: the full
event trace, the final loop_status, whether app.stop() ran, and the
exception re-raised to the caller (if any). -/
structure RunResult where
  trace : List Event
  status : LoopStatus
  appStopped : Bool
  reraised : Option Exc
  deriving DecidableEq, Repr

/-- ApplicationDriver.run_application: runs the loop inside
try/except/finally. KeyboardInterrupt is logged and swallowed;
OutOfRangeError sets normal_exit when it was not already set;
RuntimeError is traced and swallowed; any other exception class matches
no except clause and propagates to the caller after the finally block.
The finally block broadcasts SESS_FINISHED once more only when
normal_exit is not set, and always calls app.stop(). -/
def ApplicationDriver.run_application (initial_iter : Int) (cancel : Nat → Bool)
    (msgs : List IterMsg) : RunResult :=
  let r := ApplicationDriver.loop cancel msgs (runInitStatus initial_iter)
  let st1 :=
    match r.exc with
    | some Exc.outOfRange =>
        if r.status.normalExit then r.status else { r.status with normalExit := true }
    | _ => r.status
  let reraised :=
    match r.exc with
    | some Exc.other => some Exc.other
    | _ => none
  let finalEvents :=
    if st1.normalExit then []
    else [Event.sessFinished (st1.currentIter?.getD (-1))]
  { trace := r.events ++ finalEvents, status := st1, appStopped := true, reraised := reraised }

/-- The bn_ops variable of ApplicationDriver.create_graph after the
device loop: one pass per device index in range(max(num_gpus, 1)); when
training, each pass overwrites bn_ops with the BN_COLLECTION ops created
under that device scope (`bnColl gpu_id`); otherwise bn_ops stays None. -/
def create_graph_bn_ops (num_gpus : Int) (is_training : Bool)
    (bnColl : Nat → List Nat) : Option (List Nat) :=
  (List.range (max num_gpus 1).toNat).foldl
    (fun bn_ops gpu_id => if is_training then some (bnColl gpu_id) else bn_ops) none

/-- The ApplyGradients stage of ApplicationDriver.create_graph: when
training with a gradients collector, updates_op starts empty and is
extended with bn_ops when bn_ops is truthy (not None and not empty), and
the gradient update op is created under control_dependencies(updates_op).
Returns the control-dependency list of that op, or none when no gradient
update op is assembled. -/
def ApplicationDriver.create_graph (num_gpus : Int) (is_training : Bool)
    (has_gradients_collector : Bool) (bnColl : Nat → List Nat) : Option (List Nat) :=
  let bn_ops := create_graph_bn_ops num_gpus is_training bnColl
  if is_training && has_gradients_collector then
    some (match bn_ops with
          | some l => if l.isEmpty then [] else l
          | none => [])
  else none

/-- Python str.lower for one character (ASCII case, which covers the
action names involved). -/
def lowerChar (c : Char) : Char :=
  if 'A' ≤ c ∧ c ≤ 'Z' then Char.ofNat (c.toNat + 32) else c

/-- Python str.startswith over character lists. -/
def strStartsWith : List Char → List Char → Bool
  | _, [] => true
  | [], _ :: _ => false
  | a :: s, b :: p => (a == b) && strStartsWith s p

/-- Modelled from the spec: the TRAIN action-name constant
(niftynet/engine/signal.py) is not under src/; the spec describes the
action mode as training versus inference selected from the configured
action string, and the training action name is the literal train. -/
def TRAIN : List Char := ['t', 'r', 'a', 'i', 'n']

/-- Modelled from the spec: infer_latest_model_file
(niftynet/io/misc_io.py) is not under src/; per the spec, the latest
persisted checkpoint is the maximum iteration index encoded in the
checkpoint file names found in the model directory (0 when none). -/
def infer_latest_model_file (checkpoint_indices : List Nat) : Int :=
  ((checkpoint_indices.foldl max 0 : Nat) : Int)

/-- Errors raised during initialise_application (the spec groups the
assertion failures and missing-section failures under
ConfigurationError). -/
inductive ConfigurationError
  | modelFolderMissing
  | trainingParamsMissing
  | inferenceParamsMissing
  | appParamMissing
  | validationWithoutSplit
  deriving DecidableEq, Repr

/-- Side effects of initialise_application on external collaborators, in
program order; samplerInGraph is the only graph work of the
configuration phase (initialise_sampler inside the graph context). -/
inductive InitAction
  | setCudaDevice
  | touchModelFolder
  | createApp
  | partitionerReset
  | partitionerInitialise (new_partition : Bool)
  | datasetLoaderInit
  | samplerInGraph
  deriving DecidableEq, Repr

/-- The SYSTEM section fields read by the driver. model_checkpoints
lists the iteration indices encoded in the checkpoint file names present
under the model directory. -/
structure SystemParam where
  model_dir_exists : Bool
  action : List Char
  num_threads : Int
  num_gpus : Int
  model_checkpoints : List Nat
  dataset_split_file_exists : Bool
  deriving DecidableEq, Repr

/-- The TRAINING section fields read by the driver. -/
structure TrainParam where
  starting_iter : Int
  max_iter : Int
  save_every_n : Int
  tensorboard_every_n : Int
  max_checkpoints : Int
  validation_every_n : Int
  validation_max_iter : Int
  exclude_fraction_for_validation : Rat
  exclude_fraction_for_inference : Rat
  deriving DecidableEq, Repr

/-- The INFERENCE section field read by the driver. -/
structure InferParam where
  inference_iter : Int
  deriving DecidableEq, Repr

/-- Driver configuration attributes, with the defaults assigned by
ApplicationDriver.__init__. -/
structure DriverConfig where
  is_training_action : Bool := true
  num_threads : Int := 0
  num_gpus : Int := 0
  max_checkpoints : Int := 2
  save_every_n : Int := 0
  tensorboard_every_n : Int := -1
  initial_iter : Int := 0
  final_iter : Int := 0
  validation_every_n : Int := -1
  validation_max_iter : Int := 1
  deriving DecidableEq, Repr

/-- The training branch of initialise_application: starting iteration,
final_iter = max(max_iter, initial_iter) computed from the configured
(possibly negative) starting iteration, checkpoint cadence, and
validation cadence. -/
def initialise_training_config (base : DriverConfig) (t : TrainParam) : DriverConfig :=
  { base with
      initial_iter := t.starting_iter
      final_iter := max t.max_iter t.starting_iter
      save_every_n := t.save_every_n
      tensorboard_every_n := t.tensorboard_every_n
      max_checkpoints := max t.max_checkpoints base.max_checkpoints
      validation_every_n := t.validation_every_n
      validation_max_iter :=
        if t.validation_every_n > 0 then max base.validation_max_iter t.validation_max_iter
        else base.validation_max_iter }

/-- Tail of initialise_application after the action-specific parameter
assignment: resolve a negative initial iteration from the model files,
create the application (assert app_param), reset the partitioner,
initialise the partition when data parameters are given and check that a
validation split exists whenever validation_every_n is positive, then
initialise the dataset loader and the sampler inside the graph context. -/
def initialise_after_params (sys : SystemParam) (train? : Option TrainParam)
    (cfg0 : DriverConfig) (app_param_present : Bool) (data_param_present : Bool)
    (has_validation : Bool) (acts : List InitAction) :
    Except ConfigurationError DriverConfig × List InitAction :=
  let cfg :=
    if cfg0.initial_iter < 0 then
      { cfg0 with initial_iter := infer_latest_model_file sys.model_checkpoints }
    else cfg0
  if !app_param_present then (Except.error ConfigurationError.appParamMissing, acts)
  else
    let acts := acts ++ [InitAction.createApp, InitAction.partitionerReset]
    if data_param_present then
      let do_new_partition :=
        match train? with
        | some t =>
            cfg.is_training_action && (cfg.initial_iter == 0) &&
            !sys.dataset_split_file_exists &&
            (decide ((0 : Rat) < t.exclude_fraction_for_validation) ||
             decide ((0 : Rat) < t.exclude_fraction_for_inference))
        | none => false
      let acts := acts ++ [InitAction.partitionerInitialise do_new_partition]
      if has_validation || decide (cfg.validation_every_n ≤ 0) then
        (Except.ok cfg, acts ++ [InitAction.datasetLoaderInit, InitAction.samplerInGraph])
      else
        (Except.error ConfigurationError.validationWithoutSplit, acts)
    else
      (Except.ok cfg, acts ++ [InitAction.datasetLoaderInit, InitAction.samplerInGraph])

/-- ApplicationDriver.initialise_application. The partitioner answer
has_validation and the presence flags of the CUSTOM and data sections
are inputs, since those collaborators live outside src/. Returns the
resulting configuration (or the configuration error) together with the
external side effects performed, in order. -/
def ApplicationDriver.initialise_application (sys : SystemParam)
    (train? : Option TrainParam) (infer? : Option InferParam)
    (app_param_present : Bool) (data_param_present : Bool) (has_validation : Bool) :
    Except ConfigurationError DriverConfig × List InitAction :=
  if !sys.model_dir_exists then (Except.error ConfigurationError.modelFolderMissing, [])
  else
    let is_training := strStartsWith TRAIN (sys.action.map lowerChar)
    let acts := [InitAction.setCudaDevice, InitAction.touchModelFolder]
    let base : DriverConfig :=
      { is_training_action := is_training
        num_threads := if is_training then max sys.num_threads 1 else 1
        num_gpus := if is_training then sys.num_gpus else min sys.num_gpus 1 }
    if is_training then
      match train? with
      | none => (Except.error ConfigurationError.trainingParamsMissing, acts)
      | some t =>
          initialise_after_params sys train? (initialise_training_config base t)
            app_param_present data_param_present has_validation acts
    else
      match infer? with
      | none => (Except.error ConfigurationError.inferenceParamsMissing, acts)
      | some i =>
          initialise_after_params sys train? { base with initial_iter := i.inference_iter }
            app_param_present data_param_present has_validation acts

/-- Recogniser for session-started events. -/
def Event.isSessStarted : Event → Bool
  | Event.sessStarted _ => true
  | _ => false

/-- Recogniser for session-finished events. -/
def Event.isSessFinished : Event → Bool
  | Event.sessFinished _ => true
  | _ => false

/-- Recogniser for iteration-started events. -/
def Event.isIterStarted : Event → Bool
  | Event.iterStarted _ => true
  | _ => false

/-- Recogniser for iteration-finished events. -/
def Event.isIterFinished : Event → Bool
  | Event.iterFinished _ => true
  | _ => false

/-- Concatenated step events of a message list. -/
def stepsEvents : List IterMsg → List Event
  | [] => []
  | m :: rest => loop_step_events m ++ stepsEvents rest

/-- Step events contain no session-level events. -/
theorem loop_step_events_no_sess (m : IterMsg) :
    (loop_step_events m).countP Event.isSessStarted = 0 ∧
    (loop_step_events m).countP Event.isSessFinished = 0 := by
  cases h : m.outcome <;>
    simp [loop_step_events, h, Event.isSessStarted, Event.isSessFinished]

/-- The for-loop broadcasts no session-level events. -/
theorem loopBody_no_sess (cancel : Nat → Bool) (msgs : List IterMsg) (k : Nat)
    (st : LoopStatus) :
    (loopBody cancel msgs k st).events.countP Event.isSessStarted = 0 ∧
    (loopBody cancel msgs k st).events.countP Event.isSessFinished = 0 := by
  induction msgs generalizing k st with
  | nil => simp [loopBody]
  | cons m rest ih =>
    by_cases hc : cancel k
    · simp [loopBody, hc]
    · have hm := loop_step_events_no_sess m
      cases ho : m.outcome with
      | ok b =>
        cases b with
        | false =>
          have := ih (k + 1) { st with currentIter? := some m.current_iter }
          simp [loopBody, hc, ho, List.countP_append, hm.1, hm.2, this.1, this.2]
        | true => simp [loopBody, hc, ho, hm.1, hm.2]
      | raiseAtStarted e => simp [loopBody, hc, ho, hm.1, hm.2]
      | raiseAtExec e => simp [loopBody, hc, ho, hm.1, hm.2]
      | raiseAtFinished e => simp [loopBody, hc, ho, hm.1, hm.2]

/-- The for-loop never touches the normal_exit flag. -/
theorem loopBody_normalExit (cancel : Nat → Bool) (msgs : List IterMsg) (k : Nat)
    (st : LoopStatus) :
    (loopBody cancel msgs k st).status.normalExit = st.normalExit := by
  induction msgs generalizing k st with
  | nil => simp [loopBody]
  | cons m rest ih =>
    by_cases hc : cancel k
    · simp [loopBody, hc]
    · cases ho : m.outcome with
      | ok b =>
        cases b with
        | false =>
          have := ih (k + 1) { st with currentIter? := some m.current_iter }
          simp [loopBody, hc, ho, this]
        | true => simp [loopBody, hc, ho]
      | raiseAtStarted e => simp [loopBody, hc, ho]
      | raiseAtExec e => simp [loopBody, hc, ho]
      | raiseAtFinished e => simp [loopBody, hc, ho]

/-- An exception escaping the for-loop originates in a step of one of
the pulled messages. -/
theorem loopBody_exc_mem (cancel : Nat → Bool) (msgs : List IterMsg) (k : Nat)
    (st : LoopStatus) (e : Exc) (h : (loopBody cancel msgs k st).exc = some e) :
    ∃ m ∈ msgs, m.outcome.excOf = some e := by
  induction msgs generalizing k st with
  | nil => simp [loopBody] at h
  | cons m rest ih =>
    by_cases hc : cancel k
    · simp [loopBody, hc] at h
    · cases ho : m.outcome with
      | ok b =>
        cases b with
        | false =>
          simp only [loopBody, hc, ho] at h
          simp only [Bool.false_eq_true, if_false] at h
          obtain ⟨m2, hm2, he2⟩ := ih (k + 1) { st with currentIter? := some m.current_iter } h
          exact ⟨m2, List.mem_cons_of_mem m hm2, he2⟩
        | true => simp [loopBody, hc, ho] at h
      | raiseAtStarted e2 =>
        simp only [loopBody, hc, ho, if_false, Bool.not_eq_true] at h
        simp at h
        exact ⟨m, List.mem_cons_self m rest, by simp [StepOutcome.excOf, ho, h]⟩
      | raiseAtExec e2 =>
        simp only [loopBody, hc, ho] at h
        simp at h
        exact ⟨m, List.mem_cons_self m rest, by simp [StepOutcome.excOf, ho, h]⟩
      | raiseAtFinished e2 =>
        simp only [loopBody, hc, ho] at h
        simp at h
        exact ⟨m, List.mem_cons_self m rest, by simp [StepOutcome.excOf, ho, h]⟩

/-- Once a message whose step sets should_stop is executed, the loop
breaks: everything the generator would yield afterwards is irrelevant to
the for-loop result. -/
theorem loopBody_stop_absorbs (cancel : Nat → Bool) (m : IterMsg)
    (hm : m.outcome = StepOutcome.ok true) (pre rest : List IterMsg) (k : Nat)
    (st : LoopStatus) :
    loopBody cancel (pre ++ m :: rest) k st = loopBody cancel (pre ++ [m]) k st := by
  induction pre generalizing k st with
  | nil =>
    by_cases hc : cancel k
    · simp [loopBody, hc]
    · simp [loopBody, hc, hm]
  | cons p pre ih =>
    by_cases hc : cancel k
    · simp [loopBody, hc]
    · cases hp : p.outcome with
      | ok b =>
        cases b with
        | false =>
          simp only [List.cons_append, loopBody, hc, if_false, Bool.false_eq_true,
            Bool.not_eq_true, hp, List.append_eq]
          rw [ih]
        | true => simp [loopBody, hc, hp]
      | raiseAtStarted e => simp [loopBody, hc, hp]
      | raiseAtExec e => simp [loopBody, hc, hp]
      | raiseAtFinished e => simp [loopBody, hc, hp]

/-- Characterisation of the for-loop when every step completes without
setting should_stop and the cancellation flag is first observed set at
poll k + n + 1 (that is, it becomes set while step n of this walk
executes): steps 0 to n run to completion, current_iter records step n,
no exception escapes, and the number of pulled messages is n + 2 when a
further message exists (pulled, then dropped at the poll) and the list
length otherwise. -/
theorem loopBody_cancel_from (cancel : Nat → Bool) (msgs : List IterMsg) (n k : Nat)
    (st : LoopStatus) (hcan : ∀ j, cancel j = decide (k + n + 1 ≤ j))
    (hok : ∀ m ∈ msgs, m.outcome = StepOutcome.ok false) (hn : n < msgs.length) :
    loopBody cancel msgs k st =
      { events := stepsEvents (msgs.take (n + 1)),
        status := { st with currentIter? := some (msgs.get ⟨n, hn⟩).current_iter },
        exc := none,
        consumed := min (n + 2) msgs.length } := by
  induction msgs generalizing n k st with
  | nil => exact absurd hn (by simp)
  | cons m rest ih =>
    have hc : cancel k = false := by
      rw [hcan k]; exact decide_eq_false (by omega)
    have hm : m.outcome = StepOutcome.ok false := hok m (List.mem_cons_self m rest)
    cases n with
    | zero =>
      cases rest with
      | nil =>
        simp [loopBody, hc, hm, stepsEvents, List.get]
      | cons r0 rest2 =>
        have hc1 : cancel (k + 1) = true := by
          rw [hcan (k + 1)]; exact decide_eq_true (by omega)
        simp only [loopBody, hc, hm, Bool.false_eq_true, if_false, hc1, if_true,
          Bool.not_eq_true]
        simp [stepsEvents, List.get]
    | succ n2 =>
      have hn2 : n2 < rest.length := by simpa using Nat.lt_of_succ_lt_succ hn
      have hcan2 : ∀ j, cancel j = decide ((k + 1) + n2 + 1 ≤ j) := by
        intro j; rw [hcan j]; exact decide_eq_decide.mpr (by omega)
      have hok2 : ∀ x ∈ rest, x.outcome = StepOutcome.ok false :=
        fun x hx => hok x (List.mem_cons_of_mem m hx)
      have hrec := ih n2 (k + 1) { st with currentIter? := some m.current_iter } hcan2 hok2 hn2
      simp only [loopBody, hc, hm, Bool.false_eq_true, if_false, Bool.not_eq_true]
      rw [hrec]
      simp [stepsEvents, List.take_succ_cons, List.get]
      omega

/-- Characterisation of ApplicationDriver.loop under the cancellation
scenario of loopBody_cancel_from, with the poll counter starting at 0:
the trace is session-started, the step event pairs of steps 0 to n, and
one session-finished carrying the index of step n. -/
theorem loop_cancel_from (cancel : Nat → Bool) (msgs : List IterMsg) (n : Nat)
    (st0 : LoopStatus) (hcan : ∀ j, cancel j = decide (n + 1 ≤ j))
    (hok : ∀ m ∈ msgs, m.outcome = StepOutcome.ok false) (hn : n < msgs.length) :
    ApplicationDriver.loop cancel msgs st0 =
      { events := Event.sessStarted IterationMessage.defaultIter ::
          (stepsEvents (msgs.take (n + 1)) ++
            [Event.sessFinished (msgs.get ⟨n, hn⟩).current_iter]),
        status := { currentIter? := some (msgs.get ⟨n, hn⟩).current_iter, normalExit := true },
        exc := none,
        consumed := min (n + 2) msgs.length } := by
  have hcan0 : ∀ j, cancel j = decide (0 + n + 1 ≤ j) := by
    intro j; rw [hcan j]; exact decide_eq_decide.mpr (by omega)
  have hb := loopBody_cancel_from cancel msgs n 0 st0 hcan0 hok hn
  simp [ApplicationDriver.loop, hb]

/-- Steps that complete without stopping contribute exactly one
iteration-started event each. -/
theorem stepsEvents_countP_started (msgs : List IterMsg)
    (hok : ∀ m ∈ msgs, m.outcome = StepOutcome.ok false) :
    (stepsEvents msgs).countP Event.isIterStarted = msgs.length := by
  induction msgs with
  | nil => simp [stepsEvents]
  | cons m rest ih =>
    have hm := hok m (List.mem_cons_self m rest)
    have := ih (fun x hx => hok x (List.mem_cons_of_mem m hx))
    simp [stepsEvents, List.countP_append, loop_step_events, hm, Event.isIterStarted, this]

/-- The iteration-finished event of step n appears among the step events
of the first n + 1 messages when that step completes. -/
theorem iterFinished_mem_stepsEvents (msgs : List IterMsg) (n : Nat) (hn : n < msgs.length)
    (hok : ∀ m ∈ msgs, m.outcome = StepOutcome.ok false) :
    Event.iterFinished (msgs.get ⟨n, hn⟩).current_iter ∈ stepsEvents (msgs.take (n + 1)) := by
  induction msgs generalizing n with
  | nil => exact absurd hn (by simp)
  | cons m rest ih =>
    cases n with
    | zero =>
      have hm : m.outcome = StepOutcome.ok false := hok m (List.mem_cons_self m rest)
      simp [stepsEvents, loop_step_events, hm, List.get]
    | succ n2 =>
      have hn2 : n2 < rest.length := by simpa using Nat.lt_of_succ_lt_succ hn
      have := ih n2 hn2 (fun x hx => hok x (List.mem_cons_of_mem m hx))
      simp only [List.take_succ_cons, stepsEvents, List.mem_append]
      right
      simpa [List.get] using this

/-- Claim C4: if a subscriber sets should_stop on the Iteration Message
of step n during that step, the loop breaks right after that step, so no
iteration-started event for any later message fires in the same
invocation: the whole loop result is the same as if the generator ended
at that message. -/
theorem C4_should_stop_halts (cancel : Nat → Bool) (pre : List IterMsg) (m : IterMsg)
    (rest : List IterMsg) (st0 : LoopStatus) (hm : m.outcome = StepOutcome.ok true) :
    ApplicationDriver.loop cancel (pre ++ m :: rest) st0 =
      ApplicationDriver.loop cancel (pre ++ [m]) st0 := by
  unfold ApplicationDriver.loop
  rw [loopBody_stop_absorbs cancel m hm pre rest 0 st0]

/-- Witness for C4 at a concrete input: a should_stop on the middle
message makes the trailing message irrelevant. -/
theorem C4_should_stop_halts_witness :
    ({ current_iter := 1, outcome := StepOutcome.ok true } : IterMsg).outcome =
        StepOutcome.ok true ∧
    ApplicationDriver.loop (fun _ => false)
        ([{ current_iter := 0, outcome := StepOutcome.ok false }] ++
          { current_iter := 1, outcome := StepOutcome.ok true } ::
            [{ current_iter := 2, outcome := StepOutcome.ok false }]) (runInitStatus 0) =
      ApplicationDriver.loop (fun _ => false)
        ([{ current_iter := 0, outcome := StepOutcome.ok false }] ++
          [{ current_iter := 1, outcome := StepOutcome.ok true }]) (runInitStatus 0) :=
  ⟨rfl, C4_should_stop_halts (fun _ => false) _ _ _ (runInitStatus 0) rfl⟩

/-- Claim C5: cancellation is polled only at step boundaries. When every
step completes and the cancellation flag is first observed set at poll
n + 1 (it became set while step n executed), steps 0 to n all run to
completion, step n fires its iteration-finished event, and the loop then
exits with session-finished; no step is cut between its
iteration-started and iteration-finished events by cancellation. -/
theorem C5_cancel_completes_current_step (cancel : Nat → Bool) (msgs : List IterMsg)
    (n : Nat) (st0 : LoopStatus) (hcan : ∀ j, cancel j = decide (n + 1 ≤ j))
    (hok : ∀ m ∈ msgs, m.outcome = StepOutcome.ok false) (hn : n < msgs.length) :
    (ApplicationDriver.loop cancel msgs st0).events =
      Event.sessStarted IterationMessage.defaultIter ::
        (stepsEvents (msgs.take (n + 1)) ++
          [Event.sessFinished (msgs.get ⟨n, hn⟩).current_iter]) ∧
    Event.iterFinished (msgs.get ⟨n, hn⟩).current_iter ∈
      (ApplicationDriver.loop cancel msgs st0).events := by
  have h := loop_cancel_from cancel msgs n st0 hcan hok hn
  refine ⟨by rw [h], ?_⟩
  rw [h]
  exact List.mem_cons_of_mem _
    (List.mem_append_left _ (iterFinished_mem_stepsEvents msgs n hn hok))

/-- Witness for C5 at a concrete input: flag set during step 0 of a
two-message source; step 0 still finishes before the loop exits. -/
theorem C5_cancel_completes_current_step_witness :
    (∀ m ∈ ([{ current_iter := 10, outcome := StepOutcome.ok false },
             { current_iter := 11, outcome := StepOutcome.ok false }] : List IterMsg),
        m.outcome = StepOutcome.ok false) ∧
    (ApplicationDriver.loop (fun j => decide (1 ≤ j))
        [{ current_iter := 10, outcome := StepOutcome.ok false },
         { current_iter := 11, outcome := StepOutcome.ok false }]
        (runInitStatus 0)).events =
      [Event.sessStarted (-1), Event.iterStarted 10, Event.iterFinished 10,
       Event.sessFinished 10] := by
  refine ⟨by decide, ?_⟩
  have h := (C5_cancel_completes_current_step (fun j => decide (1 ≤ j))
    [{ current_iter := 10, outcome := StepOutcome.ok false },
     { current_iter := 11, outcome := StepOutcome.ok false }] 0
    (runInitStatus 0) (fun j => rfl) (by decide) (by decide)).1
  rw [h]
  rfl

/-- Claim C10: the cancellation poll happens only after the next message
has been pulled from the generator. When the flag is set before step
n + 1 and a message n + 1 exists, exactly one message beyond the n + 1
executed steps is consumed without being executed (consumed = n + 2
while only n + 1 iteration-started events fired), and current_iter still
records step n, not the dropped message. -/
theorem C10_cancel_consumes_one_unexecuted (cancel : Nat → Bool) (msgs : List IterMsg)
    (n : Nat) (st0 : LoopStatus) (hcan : ∀ j, cancel j = decide (n + 1 ≤ j))
    (hok : ∀ m ∈ msgs, m.outcome = StepOutcome.ok false) (hn2 : n + 1 < msgs.length) :
    (ApplicationDriver.loop cancel msgs st0).consumed = n + 2 ∧
    (ApplicationDriver.loop cancel msgs st0).status.currentIter? =
      some (msgs.get ⟨n, Nat.lt_of_succ_lt hn2⟩).current_iter ∧
    (ApplicationDriver.loop cancel msgs st0).events.countP Event.isIterStarted = n + 1 := by
  have hn : n < msgs.length := Nat.lt_of_succ_lt hn2
  have h := loop_cancel_from cancel msgs n st0 hcan hok hn
  refine ⟨?_, ?_, ?_⟩
  · rw [h]
    show min (n + 2) msgs.length = n + 2
    omega
  · rw [h]
  · rw [h]
    have hsub : ∀ m ∈ msgs.take (n + 1), m.outcome = StepOutcome.ok false :=
      fun m hm => hok m (List.take_subset _ _ hm)
    have hc := stepsEvents_countP_started (msgs.take (n + 1)) hsub
    have hlen : (msgs.take (n + 1)).length = n + 1 := by
      simp [List.length_take]; omega
    simp [List.countP_cons, List.countP_append, Event.isIterStarted, hc, hlen]

/-- Witness for C10 at a concrete input: flag set before step 1 of a
three-message source; two messages consumed, one executed. -/
theorem C10_cancel_consumes_one_unexecuted_witness :
    (0 + 1 < ([{ current_iter := 10, outcome := StepOutcome.ok false },
               { current_iter := 11, outcome := StepOutcome.ok false },
               { current_iter := 12, outcome := StepOutcome.ok false }] : List IterMsg).length) ∧
    (ApplicationDriver.loop (fun j => decide (1 ≤ j))
        [{ current_iter := 10, outcome := StepOutcome.ok false },
         { current_iter := 11, outcome := StepOutcome.ok false },
         { current_iter := 12, outcome := StepOutcome.ok false }]
        (runInitStatus 0)).consumed = 0 + 2 := by
  refine ⟨by decide, ?_⟩
  exact (C10_cancel_consumes_one_unexecuted (fun j => decide (1 ≤ j))
    [{ current_iter := 10, outcome := StepOutcome.ok false },
     { current_iter := 11, outcome := StepOutcome.ok false },
     { current_iter := 12, outcome := StepOutcome.ok false }] 0
    (runInitStatus 0) (fun j => rfl) (by decide) (by decide)).1

/-- Claim C8: in training mode with a gradients collector, the batch
normalisation statistics ops attached as control dependencies of the
gradient update op are exactly those collected from the last device
built, device index max(num_gpus, 1) - 1; earlier devices contribute
nothing. -/
theorem C8_bn_ops_from_last_device (num_gpus : Int) (bnColl : Nat → List Nat) :
    ApplicationDriver.create_graph num_gpus true true bnColl =
      some (bnColl ((max num_gpus 1).toNat - 1)) := by
  have h1 : (1 : Int) ≤ max num_gpus 1 := le_max_right _ _
  have hpos : 0 < (max num_gpus 1).toNat := by omega
  obtain ⟨n, hn⟩ : ∃ n, (max num_gpus 1).toNat = n + 1 :=
    ⟨(max num_gpus 1).toNat - 1, by omega⟩
  have hfold : create_graph_bn_ops num_gpus true bnColl = some (bnColl n) := by
    unfold create_graph_bn_ops
    rw [hn, List.range_succ, List.foldl_append]
    simp
  have hidx : (max num_gpus 1).toNat - 1 = n := by omega
  unfold ApplicationDriver.create_graph
  rw [hfold, hidx]
  by_cases he : (bnColl n).isEmpty
  · simp [he, List.isEmpty_iff.mp he]
  · simp [he]


/-- Trace of run_application when the loop raised no exception: the
loop itself appended the single session-finished event and the finally
block adds nothing (normal_exit is set). -/
theorem run_application_trace_none (initial_iter : Int) (cancel : Nat → Bool)
    (msgs : List IterMsg)
    (h : (loopBody cancel msgs 0 (runInitStatus initial_iter)).exc = none) :
    (ApplicationDriver.run_application initial_iter cancel msgs).trace =
      Event.sessStarted IterationMessage.defaultIter ::
        ((loopBody cancel msgs 0 (runInitStatus initial_iter)).events ++
          [Event.sessFinished
            ((loopBody cancel msgs 0
              (runInitStatus initial_iter)).status.currentIter?.getD (-1))]) := by
  simp [ApplicationDriver.run_application, ApplicationDriver.loop, h]

/-- Trace of run_application when an OutOfRange fault escaped the loop:
the except clause sets normal_exit, so the finally block skips the
session-finished re-broadcast and the trace ends without any
session-finished event. -/
theorem run_application_trace_oor (initial_iter : Int) (cancel : Nat → Bool)
    (msgs : List IterMsg)
    (h : (loopBody cancel msgs 0 (runInitStatus initial_iter)).exc = some Exc.outOfRange) :
    (ApplicationDriver.run_application initial_iter cancel msgs).trace =
      Event.sessStarted IterationMessage.defaultIter ::
        (loopBody cancel msgs 0 (runInitStatus initial_iter)).events := by
  have hne : (loopBody cancel msgs 0 (runInitStatus initial_iter)).status.normalExit = false := by
    rw [loopBody_normalExit]; rfl
  simp [ApplicationDriver.run_application, ApplicationDriver.loop, h, hne]

/-- Trace of run_application when a KeyboardInterrupt, RuntimeError or
unhandled-class exception escaped the loop: normal_exit is still unset,
so the finally block broadcasts the single session-finished event. -/
theorem run_application_trace_exc (initial_iter : Int) (cancel : Nat → Bool)
    (msgs : List IterMsg) (e : Exc)
    (h : (loopBody cancel msgs 0 (runInitStatus initial_iter)).exc = some e)
    (hno : e ≠ Exc.outOfRange) :
    (ApplicationDriver.run_application initial_iter cancel msgs).trace =
      Event.sessStarted IterationMessage.defaultIter ::
        ((loopBody cancel msgs 0 (runInitStatus initial_iter)).events ++
          [Event.sessFinished
            ((loopBody cancel msgs 0
              (runInitStatus initial_iter)).status.currentIter?.getD (-1))]) := by
  have hne : (loopBody cancel msgs 0 (runInitStatus initial_iter)).status.normalExit = false := by
    rw [loopBody_normalExit]; rfl
  cases e with
  | outOfRange => exact absurd rfl hno
  | keyboardInterrupt =>
    simp [ApplicationDriver.run_application, ApplicationDriver.loop, h, hne]
  | runtimeError =>
    simp [ApplicationDriver.run_application, ApplicationDriver.loop, h, hne]
  | other =>
    simp [ApplicationDriver.run_application, ApplicationDriver.loop, h, hne]

/-- Claim C1 (amended): per run_application invocation, exactly one
session-started event fires and it is the first event; on every
termination path except an OutOfRange fault escaping the loop, exactly
one session-finished event fires, after session-started and as the last
event. When an OutOfRange fault escapes the loop, no session-finished
event fires at all: the except clause marks normal_exit before the
finally block tests it, so the best-effort re-broadcast is skipped. -/
theorem C1_session_event_pairing (initial_iter : Int) (cancel : Nat → Bool)
    (msgs : List IterMsg) :
    if (loopBody cancel msgs 0 (runInitStatus initial_iter)).exc = some Exc.outOfRange then
      (ApplicationDriver.run_application initial_iter cancel msgs).trace.countP
          Event.isSessStarted = 1 ∧
      (ApplicationDriver.run_application initial_iter cancel msgs).trace.countP
          Event.isSessFinished = 0
    else
      ∃ mid idx,
        (ApplicationDriver.run_application initial_iter cancel msgs).trace =
          Event.sessStarted IterationMessage.defaultIter ::
            (mid ++ [Event.sessFinished idx]) ∧
        mid.countP Event.isSessStarted = 0 ∧ mid.countP Event.isSessFinished = 0 := by
  have hns := loopBody_no_sess cancel msgs 0 (runInitStatus initial_iter)
  by_cases hbe : (loopBody cancel msgs 0 (runInitStatus initial_iter)).exc =
      some Exc.outOfRange
  · rw [if_pos hbe]
    rw [run_application_trace_oor initial_iter cancel msgs hbe]
    constructor
    · simp [List.countP_cons, Event.isSessStarted, hns.1]
    · simp [List.countP_cons, Event.isSessFinished, hns.2]
  · rw [if_neg hbe]
    refine ⟨(loopBody cancel msgs 0 (runInitStatus initial_iter)).events,
      (loopBody cancel msgs 0 (runInitStatus initial_iter)).status.currentIter?.getD (-1),
      ?_, hns.1, hns.2⟩
    rcases h2 : (loopBody cancel msgs 0 (runInitStatus initial_iter)).exc with _ | e
    · exact run_application_trace_none initial_iter cancel msgs h2
    · exact run_application_trace_exc initial_iter cancel msgs e h2
        (fun he => hbe (he ▸ h2))

/-- Counterexample for C1 as stated: an OutOfRange fault escaping step 0
yields a trace with a session-started event but zero session-finished
events, so the claimed exactly-one pairing fails on this termination
path. -/
theorem C1_counterexample_no_sess_finished :
    (ApplicationDriver.run_application 0 (fun _ => false)
        [{ current_iter := 7, outcome := StepOutcome.raiseAtExec Exc.outOfRange }]).trace =
      [Event.sessStarted (-1), Event.iterStarted 7] ∧
    (ApplicationDriver.run_application 0 (fun _ => false)
        [{ current_iter := 7, outcome := StepOutcome.raiseAtExec Exc.outOfRange }]).trace.countP
        Event.isSessFinished = 0 := by
  decide

/-- Claim C2 (amended): on every exit path app.stop() is invoked, and an
exception of one of the classes handled by the except clauses
(KeyboardInterrupt, OutOfRangeError, RuntimeError) is never re-raised to
the caller of run_application; an exception of any other class
propagates. -/
theorem C2_handled_exceptions_swallowed (initial_iter : Int) (cancel : Nat → Bool)
    (msgs : List IterMsg) :
    (ApplicationDriver.run_application initial_iter cancel msgs).appStopped = true ∧
    ((∀ m ∈ msgs, m.outcome.excOf ≠ some Exc.other) →
      (ApplicationDriver.run_application initial_iter cancel msgs).reraised = none) := by
  constructor
  · rfl
  · intro hno
    rcases hbe : (loopBody cancel msgs 0 (runInitStatus initial_iter)).exc with _ | e
    · simp [ApplicationDriver.run_application, ApplicationDriver.loop, hbe]
    · obtain ⟨m, hm, he⟩ := loopBody_exc_mem cancel msgs 0 (runInitStatus initial_iter) e hbe
      cases e with
      | other => exact absurd he (hno m hm)
      | keyboardInterrupt =>
        simp [ApplicationDriver.run_application, ApplicationDriver.loop, hbe]
      | outOfRange =>
        simp [ApplicationDriver.run_application, ApplicationDriver.loop, hbe]
      | runtimeError =>
        simp [ApplicationDriver.run_application, ApplicationDriver.loop, hbe]

/-- Witness for C2 at a concrete input: a RuntimeError escaping step 0
is swallowed and the application is stopped. -/
theorem C2_handled_exceptions_swallowed_witness :
    (∀ m ∈ ([{ current_iter := 3, outcome := StepOutcome.raiseAtExec Exc.runtimeError }] :
        List IterMsg), m.outcome.excOf ≠ some Exc.other) ∧
    (ApplicationDriver.run_application 0 (fun _ => false)
        [{ current_iter := 3, outcome := StepOutcome.raiseAtExec Exc.runtimeError }]).reraised =
      none :=
  ⟨by decide, (C2_handled_exceptions_swallowed 0 (fun _ => false)
    [{ current_iter := 3, outcome := StepOutcome.raiseAtExec Exc.runtimeError }]).2 (by decide)⟩

/-- Counterexample for C2 as stated: an exception class outside the
three handled ones (for example ValueError, or a TensorFlow OpError
other than OutOfRangeError) matches no except clause and is re-raised to
the caller of run_application; cleanup still runs. -/
theorem C2_counterexample_reraise :
    (ApplicationDriver.run_application 0 (fun _ => false)
        [{ current_iter := 0, outcome := StepOutcome.raiseAtExec Exc.other }]).reraised =
      some Exc.other ∧
    (ApplicationDriver.run_application 0 (fun _ => false)
        [{ current_iter := 0, outcome := StepOutcome.raiseAtExec Exc.other }]).appStopped =
      true := by
  decide

/-- Claim C9 (amended): the session-started event fires exactly once and
before any other event, but its placeholder message carries the fixed
IterationMessage default index, not the configured starting iteration:
the placeholder is constructed with no arguments inside the static loop
method, which never sees initial_iter. -/
theorem C9_sess_started_placeholder (initial_iter : Int) (cancel : Nat → Bool)
    (msgs : List IterMsg) :
    (ApplicationDriver.run_application initial_iter cancel msgs).trace.head? =
      some (Event.sessStarted IterationMessage.defaultIter) ∧
    (ApplicationDriver.run_application initial_iter cancel msgs).trace.countP
      Event.isSessStarted = 1 := by
  have hns := loopBody_no_sess cancel msgs 0 (runInitStatus initial_iter)
  rcases hbe : (loopBody cancel msgs 0 (runInitStatus initial_iter)).exc with _ | e
  · rw [run_application_trace_none initial_iter cancel msgs hbe]
    constructor
    · rfl
    · simp [List.countP_cons, List.countP_append, Event.isSessStarted, hns.1]
  · by_cases ho : e = Exc.outOfRange
    · subst ho
      rw [run_application_trace_oor initial_iter cancel msgs hbe]
      constructor
      · rfl
      · simp [List.countP_cons, Event.isSessStarted, hns.1]
    · rw [run_application_trace_exc initial_iter cancel msgs e hbe ho]
      constructor
      · rfl
      · simp [List.countP_cons, List.countP_append, Event.isSessStarted, hns.1]

/-- Counterexample for C9 as stated: with a configured starting
iteration of 5 and an empty message source, the session-started
placeholder carries index -1, not 5 (the later session-finished event is
the one carrying 5). -/
theorem C9_counterexample_placeholder_index :
    (ApplicationDriver.run_application 5 (fun _ => false) []).trace =
      [Event.sessStarted (-1), Event.sessFinished 5] ∧
    Event.sessStarted 5 ∉ (ApplicationDriver.run_application 5 (fun _ => false) []).trace := by
  decide

/-- A successful initialise_after_params returns cfg0 with only a
negative initial iteration replaced by the checkpoint-resolved one. -/
theorem initialise_after_params_ok (sys : SystemParam) (train? : Option TrainParam)
    (cfg0 : DriverConfig) (app data hv : Bool) (acts : List InitAction) (cfg : DriverConfig)
    (h : (initialise_after_params sys train? cfg0 app data hv acts).1 = Except.ok cfg) :
    cfg = (if cfg0.initial_iter < 0 then
        { cfg0 with initial_iter := infer_latest_model_file sys.model_checkpoints }
      else cfg0) := by
  simp only [initialise_after_params] at h
  by_cases hlt : cfg0.initial_iter < 0
  · rw [if_pos hlt]
    rw [if_pos hlt] at h
    split at h
    · simp at h
    · split at h
      · split at h
        · simp at h
          exact h.symm
        · simp at h
      · simp at h
        exact h.symm
  · rw [if_neg hlt]
    rw [if_neg hlt] at h
    split at h
    · simp at h
    · split at h
      · split at h
        · simp at h
          exact h.symm
        · simp at h
      · simp at h
        exact h.symm

/-- Claim C3 (amended): after initialise_application completes in
training mode with a nonnegative configured starting iteration,
final_iter is at least initial_iter. (With a negative configured
starting iteration the invariant can fail: final_iter is computed as
max(max_iter, starting_iter) before the checkpoint resolution replaces
initial_iter.) -/
theorem C3_final_at_least_initial (sys : SystemParam) (t : TrainParam)
    (infer? : Option InferParam) (app data hv : Bool) (cfg : DriverConfig)
    (hmd : sys.model_dir_exists = true)
    (hact : strStartsWith TRAIN (sys.action.map lowerChar) = true)
    (hstart : 0 ≤ t.starting_iter)
    (hok : (ApplicationDriver.initialise_application sys (some t) infer? app data hv).1 =
      Except.ok cfg) :
    cfg.initial_iter ≤ cfg.final_iter := by
  simp only [ApplicationDriver.initialise_application, hmd, hact, Bool.not_true,
    Bool.false_eq_true, if_false, if_true] at hok
  have h2 := initialise_after_params_ok sys (some t) _ app data hv _ cfg hok
  rw [if_neg (by simp only [initialise_training_config]; omega)] at h2
  subst h2
  simp only [initialise_training_config]
  exact le_max_right _ _

/-- Witness for C3 at a concrete input: training with starting
iteration 3 and max_iter 10 yields initial_iter 3 and final_iter 10. -/
theorem C3_final_at_least_initial_witness :
    (0 : Int) ≤ 3 ∧
    ({ is_training_action := true, num_threads := 1, num_gpus := 1, max_checkpoints := 2,
       save_every_n := 0, tensorboard_every_n := 0, initial_iter := 3, final_iter := 10,
       validation_every_n := -1, validation_max_iter := 1 } : DriverConfig).initial_iter ≤
      ({ is_training_action := true, num_threads := 1, num_gpus := 1, max_checkpoints := 2,
         save_every_n := 0, tensorboard_every_n := 0, initial_iter := 3, final_iter := 10,
         validation_every_n := -1, validation_max_iter := 1 } : DriverConfig).final_iter :=
  ⟨by decide,
    C3_final_at_least_initial
      { model_dir_exists := true, action := ['t', 'r', 'a', 'i', 'n'], num_threads := 1,
        num_gpus := 1, model_checkpoints := [], dataset_split_file_exists := true }
      { starting_iter := 3, max_iter := 10, save_every_n := 0, tensorboard_every_n := 0,
        max_checkpoints := 2, validation_every_n := -1, validation_max_iter := 1,
        exclude_fraction_for_validation := 0, exclude_fraction_for_inference := 0 }
      none true false false _ rfl rfl (by decide) rfl⟩

/-- Counterexample for C3 as stated: training with configured starting
iteration -1, max_iter 10 and checkpoints 10, 25, 7 in the model
directory resolves initial_iter to 25 while final_iter was already fixed
at max(10, -1) = 10, violating final_iter >= initial_iter. -/
theorem C3_counterexample_resolved_start :
    ((ApplicationDriver.initialise_application
        { model_dir_exists := true, action := ['t', 'r', 'a', 'i', 'n'], num_threads := 1,
          num_gpus := 1, model_checkpoints := [10, 25, 7], dataset_split_file_exists := true }
        (some { starting_iter := -1, max_iter := 10, save_every_n := 0,
                tensorboard_every_n := 0, max_checkpoints := 2, validation_every_n := -1,
                validation_max_iter := 1, exclude_fraction_for_validation := 0,
                exclude_fraction_for_inference := 0 })
        none true false false).1.toOption.map
      (fun c => (c.initial_iter, c.final_iter))) = some (25, 10) ∧
    ¬ ((25 : Int) ≤ 10) := by
  constructor
  · rfl
  · decide

/-- With data parameters present, no validation split available, and a
positive validation cadence, initialise_after_params stops at the
partition check: it returns the validation configuration error and its
action list ends at the partitioner, before the dataset loader and the
sampler graph work. -/
theorem initialise_after_params_validation_fails (sys : SystemParam)
    (train? : Option TrainParam) (cfg0 : DriverConfig) (acts : List InitAction)
    (hval : 0 < cfg0.validation_every_n) :
    (initialise_after_params sys train? cfg0 true true false acts).1 =
      Except.error ConfigurationError.validationWithoutSplit ∧
    (InitAction.samplerInGraph ∉ acts →
      InitAction.samplerInGraph ∉ (initialise_after_params sys train? cfg0 true true false acts).2) := by
  have hv2 : (if cfg0.initial_iter < 0 then
      { cfg0 with initial_iter := infer_latest_model_file sys.model_checkpoints }
    else cfg0).validation_every_n = cfg0.validation_every_n := by split <;> rfl
  have hd : decide (cfg0.validation_every_n ≤ 0) = false := decide_eq_false (by omega)
  simp only [initialise_after_params, hv2, hd, Bool.not_true, Bool.false_or,
    Bool.false_eq_true, if_false, if_true, ite_true, ite_false]
  refine ⟨trivial, fun hna => ?_⟩
  simp [List.mem_append, hna]

/-- Claim C6: requesting periodic validation (validation_every_n
positive) in training mode against a data partition with no validation
subset makes initialise_application fail with the validation
configuration error, and no sampler graph work happens. -/
theorem C6_validation_requires_split (sys : SystemParam) (t : TrainParam)
    (infer? : Option InferParam)
    (hmd : sys.model_dir_exists = true)
    (hact : strStartsWith TRAIN (sys.action.map lowerChar) = true)
    (hval : 0 < t.validation_every_n) :
    (ApplicationDriver.initialise_application sys (some t) infer? true true false).1 =
      Except.error ConfigurationError.validationWithoutSplit ∧
    InitAction.samplerInGraph ∉
      (ApplicationDriver.initialise_application sys (some t) infer? true true false).2 := by
  have key := initialise_after_params_validation_fails sys (some t)
    (initialise_training_config
      { is_training_action := true, num_threads := max sys.num_threads 1,
        num_gpus := sys.num_gpus } t)
    [InitAction.setCudaDevice, InitAction.touchModelFolder]
    (by simp only [initialise_training_config]; exact hval)
  have hunf : ApplicationDriver.initialise_application sys (some t) infer? true true false =
      initialise_after_params sys (some t)
        (initialise_training_config
          { is_training_action := true, num_threads := max sys.num_threads 1,
            num_gpus := sys.num_gpus } t)
        true true false [InitAction.setCudaDevice, InitAction.touchModelFolder] := by
    simp [ApplicationDriver.initialise_application, hmd, hact]
  rw [hunf]
  exact ⟨key.1, key.2 (by simp)⟩

/-- Witness for C6 at a concrete input: the spec scenario
validation_every_n = 5 with no validation subset. -/
theorem C6_validation_requires_split_witness :
    (0 : Int) < 5 ∧
    (ApplicationDriver.initialise_application
        { model_dir_exists := true, action := ['t', 'r', 'a', 'i', 'n'], num_threads := 1,
          num_gpus := 1, model_checkpoints := [], dataset_split_file_exists := true }
        (some { starting_iter := 0, max_iter := 10, save_every_n := 0,
                tensorboard_every_n := 0, max_checkpoints := 2, validation_every_n := 5,
                validation_max_iter := 1, exclude_fraction_for_validation := 0,
                exclude_fraction_for_inference := 0 })
        none true true false).1 =
      Except.error ConfigurationError.validationWithoutSplit :=
  ⟨by decide,
    (C6_validation_requires_split
      { model_dir_exists := true, action := ['t', 'r', 'a', 'i', 'n'], num_threads := 1,
        num_gpus := 1, model_checkpoints := [], dataset_split_file_exists := true }
      { starting_iter := 0, max_iter := 10, save_every_n := 0, tensorboard_every_n := 0,
        max_checkpoints := 2, validation_every_n := 5, validation_max_iter := 1,
        exclude_fraction_for_validation := 0, exclude_fraction_for_inference := 0 }
      none rfl rfl (by decide)).1⟩

/-- Claim C7: whenever the configured starting iteration is negative,
the initial iteration that initialise_application returns in the
configuration is the maximum iteration index encoded in the checkpoint
files of the model directory. -/
theorem C7_negative_start_resolves_latest (sys : SystemParam) (t : TrainParam)
    (infer? : Option InferParam) (app data hv : Bool) (cfg : DriverConfig)
    (hmd : sys.model_dir_exists = true)
    (hact : strStartsWith TRAIN (sys.action.map lowerChar) = true)
    (hneg : t.starting_iter < 0)
    (hok : (ApplicationDriver.initialise_application sys (some t) infer? app data hv).1 =
      Except.ok cfg) :
    cfg.initial_iter = infer_latest_model_file sys.model_checkpoints := by
  simp only [ApplicationDriver.initialise_application, hmd, hact, Bool.not_true,
    Bool.false_eq_true, if_false, if_true] at hok
  have h2 := initialise_after_params_ok sys (some t) _ app data hv _ cfg hok
  rw [if_pos (by simp only [initialise_training_config]; omega)] at h2
  subst h2
  rfl

/-- Witness for C7 at a concrete input: the spec scenario with
checkpoints model-10, model-25, model-7 and starting iteration -1
resolves to 25. -/
theorem C7_negative_start_resolves_latest_witness :
    ((-1 : Int) < 0) ∧
    ({ is_training_action := true, num_threads := 1, num_gpus := 1, max_checkpoints := 2,
       save_every_n := 0, tensorboard_every_n := 0, initial_iter := 25, final_iter := 10,
       validation_every_n := -1, validation_max_iter := 1 } : DriverConfig).initial_iter =
      infer_latest_model_file [10, 25, 7] ∧
    infer_latest_model_file [10, 25, 7] = 25 :=
  ⟨by decide,
   C7_negative_start_resolves_latest
     { model_dir_exists := true, action := ['t', 'r', 'a', 'i', 'n'], num_threads := 1,
       num_gpus := 1, model_checkpoints := [10, 25, 7], dataset_split_file_exists := true }
     { starting_iter := -1, max_iter := 10, save_every_n := 0, tensorboard_every_n := 0,
       max_checkpoints := 2, validation_every_n := -1, validation_max_iter := 1,
       exclude_fraction_for_validation := 0, exclude_fraction_for_inference := 0 }
     none true false false
     { is_training_action := true, num_threads := 1, num_gpus := 1, max_checkpoints := 2,
       save_every_n := 0, tensorboard_every_n := 0, initial_iter := 25, final_iter := 10,
       validation_every_n := -1, validation_max_iter := 1 }
     rfl rfl (by decide) rfl,
   by decide⟩
